import Mathlib

/-!
Verification of the orchestration logic of a small text-to-speech HTTP
server (`kokoro_tts_fastapi_server.py`).

The program is a thin orchestrator around two external collaborators: a
speech-synthesis pipeline (`KPipeline`) and an external audio encoder
(`ffmpeg`).  We embed the orchestrator shallowly: the collaborators'
behaviour for a single request is captured in an `Env` record (what the
phonemization generator yields, what `generate_from_tokens` yields for
given tokens, how the encoder process exits, and the request's freshly
generated identifier), and the handler body is a pure function from `Env`
and the request fields to a result together with a trace of the external
effects it performed (pipeline calls, file writes, subprocess runs).
-/

namespace TTSServer

/-- The value bound to `ps` by the phonemization loop: the Python code at
line 103 distinguishes a tuple (`ps[0]`) from a plain string. -/
inductive PS where
  | str (s : String)
  | tup (xs : List String)
deriving DecidableEq, Repr

/-- Exceptions that can flow through the handler: FastAPI `HTTPException`s
raised by the handler itself, the `IndexError` from `ps[0]` on an empty
tuple, and arbitrary exceptions raised by collaborators. -/
inductive Exc where
  | httpExc (status : Nat) (detail : String)
  | indexError
  | other (msg : String)
deriving DecidableEq, Repr

/-- The string form of an exception, modelling Python `str(e)`:
Starlette's `HTTPException.__str__` is `f"{status_code}: {detail}"`, an
`IndexError` from `()[0]` prints `tuple index out of range`, and a generic
exception prints its message.  Claim-independent theorems quantify over an
arbitrary string-form function; this concrete one instantiates them. -/
def pyStr : Exc → String
  | .httpExc status detail => toString status ++ ": " ++ detail
  | .indexError => "tuple index out of range"
  | .other msg => msg

/-- Externally visible effects performed by the handler, in order. -/
inductive Effect where
  | pipelineCall (text voice : String) (speed : Nat) (splitPattern : Option String)
  | genTokens (tokens voice : String) (speed : Nat)
  | sfWrite (path : String) (audio : List Int) (rate : Nat)
  | runExternal (cmd : List String)
deriving DecidableEq, Repr

/-- Outcome of the external encoder subprocess for this request:
`ffmpeg` exits with a status code, or the invocation raises. -/
inductive EncResult where
  | exitCode (code : Nat)
  | raised (msg : String)
deriving DecidableEq, Repr

/-- Per-request behaviour of the external collaborators.

`phonBatches` is what iterating `pipeline(text, voice=voice, speed=1,
split_pattern=None)` yields (each item a `(gs, ps, audio)` triple), or the
exception iterating it raises; `genBatches tokens` likewise for
`pipeline.generate_from_tokens(tokens=..., voice=..., speed=1.0)`;
`enc` is the encoder process outcome; `requestId` is the value of
`str(uuid.uuid4())` for this request and `tempDir` the value of
`TEMP_DIR`. -/
structure Env where
  tempDir : String
  requestId : String
  phonBatches : Except Exc (List (String × PS × List Int))
  genBatches : String → Except Exc (List (String × String × List Int))
  enc : EncResult

/-- `ps[0] if isinstance(ps, tuple) else ps` (line 103): a tuple yields its
first element (raising `IndexError` when empty), a string yields itself. -/
def extractPhonemes : PS → Except Exc String
  | .str s => .ok s
  | .tup [] => .error .indexError
  | .tup (x :: _) => .ok x

/-- The `lang_code_map` dict lookup with default `'a'` (lines 70-77). -/
def lang_code_map (lang : String) : String :=
  if lang = "en" then "a"
  else if lang = "gb" then "b"
  else if lang = "es" then "e"
  else if lang = "ja" then "j"
  else if lang = "zh" then "z"
  else "a"

/-- The `voice_map` dict lookup with default `'af_heart'` (lines 80-87). -/
def voice_map (code : String) : String :=
  if code = "a" then "af_heart"
  else if code = "b" then "bf_sunny"
  else if code = "e" then "em_alex"
  else if code = "j" then "jf_yama"
  else if code = "z" then "zf_xiaobei"
  else "af_heart"

/-- Python `str.lower()` (line 67): lowercase each character.  (Python's
`lower` is Unicode-aware, but on the characters of the five table keys the
only strings lowering to a key are their per-character lowerings, so a
per-character map is an exact model for resolution purposes.) -/
def strLower (s : String) : String := ⟨s.data.map Char.toLower⟩

/-- Language resolution as performed in lines 67-87: lowercase the tag,
map it to a model language code (default `'a'`), then to a voice
(default `'af_heart'`). -/
def resolveLang (lang : String) : String × String :=
  let code := lang_code_map (strLower lang)
  (code, voice_map code)

/-- The `ffmpeg` command line built in `convert_to_ogg` (line 47). -/
def ffmpegCmd (wavPath oggPath : String) : List String :=
  ["ffmpeg", "-i", wavPath, "-c:a", "libopus", "-b:a", "24k", oggPath, "-y"]

/-- `convert_to_ogg` (lines 44-56): runs `ffmpeg` with `check=True`, so a
zero exit returns `True`; a non-zero exit raises `CalledProcessError`,
caught and turned into `False`; any other exception is also caught and
turned into `False`.  Returns the success flag together with the
subprocess-invocation effect. -/
def convert_to_ogg (enc : EncResult) (wavPath oggPath : String) :
    Bool × List Effect :=
  ((match enc with
    | .exitCode 0 => true
    | .exitCode _ => false
    | .raised _ => false),
   [.runExternal (ffmpegCmd wavPath oggPath)])

/-- The pipeline cache: the module-level `pipelines` dict together with a
counter that numbers pipeline constructions, so each `KPipeline(...)` call
yields a fresh instance identifier. -/
structure PipelineCache where
  table : List (String × Nat)
  nextId : Nat
deriving DecidableEq, Repr

/-- `get_pipeline` (lines 37-42): on a cache miss construct a new pipeline
instance, store it under `langCode` and return it; on a hit return the
stored instance unchanged. -/
def get_pipeline (c : PipelineCache) (langCode : String) :
    PipelineCache × Nat :=
  match c.table.lookup langCode with
  | some p => (c, p)
  | none =>
      ({ table := (langCode, c.nextId) :: c.table, nextId := c.nextId + 1 },
       c.nextId)

/-- A `FileResponse` as returned on success (lines 139-143). -/
structure FileResp where
  path : String
  mediaType : String
  filename : String
deriving DecidableEq, Repr

/-- The body of the `try` block of `text_to_speech` (lines 66-143):
resolve the language, build the per-request paths, phonemize (keeping only
the first yielded batch), check the phonemes, synthesize from tokens,
check the segments, concatenate and write the WAV, encode to OGG, and
return the file response.  Errors are the raised exceptions. -/
def tts_body (env : Env) (text lang : String) :
    Except Exc FileResp × List Effect :=
  let rv := resolveLang lang
  let voice := rv.2
  let wavPath := env.tempDir ++ "/" ++ env.requestId ++ ".wav"
  let oggPath := env.tempDir ++ "/" ++ env.requestId ++ ".ogg"
  let tr0 : List Effect := [.pipelineCall text voice 1 none]
  match env.phonBatches with
  | .error e => (.error e, tr0)
  | .ok [] => (.error (.httpExc 500 "No phonemes generated from text"), tr0)
  | .ok (b :: _) =>
    match extractPhonemes b.2.1 with
    | .error e => (.error e, tr0)
    | .ok phonemes =>
      if phonemes = "" then
        (.error (.httpExc 500 "No phonemes generated from text"), tr0)
      else
        let tr1 := tr0 ++ [.genTokens phonemes voice 1]
        match env.genBatches phonemes with
        | .error e => (.error e, tr1)
        | .ok batches =>
          if batches = [] then
            (.error (.httpExc 500 "No audio segments generated from phonemes"),
             tr1)
          else
            let combined := (batches.map (fun b => b.2.2)).flatten
            let tr2 := tr1 ++ [.sfWrite wavPath combined 24000]
            let conv := convert_to_ogg env.enc wavPath oggPath
            let tr3 := tr2 ++ conv.2
            if conv.1 then
              (.ok ⟨oggPath, "audio/ogg",
                    "speech_" ++ env.requestId ++ ".ogg"⟩, tr3)
            else
              (.error (.httpExc 500 "Error during audio conversion"), tr3)

/-- The HTTP-level response the client observes: either the file response,
or the JSON error body FastAPI renders for a raised `HTTPException`. -/
inductive HttpResponse where
  | file (fr : FileResp)
  | errorJson (status : Nat) (detail : String)
deriving DecidableEq, Repr

/-- The full `text_to_speech` handler (lines 62-147): run the `try` body;
any exception `e` it raises (FastAPI `HTTPException`s included, since
`HTTPException` subclasses `Exception`) is caught by the catch-all at
line 145 and re-raised as `HTTPException(500, "Internal server error: "
+ str(e))`, which FastAPI renders as a 500 JSON `{detail: ...}` body.
`strE` is the string-form function for exceptions (`str` in Python). -/
def text_to_speech (strE : Exc → String) (env : Env) (text lang : String) :
    HttpResponse × List Effect :=
  match tts_body env text lang with
  | (.ok fr, tr) => (.file fr, tr)
  | (.error e, tr) =>
      (.errorJson 500 ("Internal server error: " ++ strE e), tr)

/-- Lowercase-hex check, as produced by `str(uuid.uuid4())`. -/
def isHexLower (c : Char) : Bool :=
  c.isDigit || ('a' ≤ c && c ≤ 'f')

/-- Syntactic validity of a canonical UUID string: 36 characters, hyphens
at positions 8, 13, 18 and 23, lowercase hex digits elsewhere.  `uuid`
is an external library; this predicate captures the shape of its output
that the spec calls a syntactically valid unique identifier. -/
def isValidUuid (s : String) : Bool :=
  s.data.length = 36 &&
  (s.data.zip (List.range 36)).all fun p =>
    if p.2 = 8 ∨ p.2 = 13 ∨ p.2 = 18 ∨ p.2 = 23 then p.1 = '-'
    else isHexLower p.1

/-- C1: for every request, the language resolution step maps the
lowercased language tag to a (model code, voice) pair via the fixed table
{en->(a,af_heart), gb->(b,bf_sunny), es->(e,em_alex), ja->(j,jf_yama),
zh->(z,zf_xiaobei)}, case-insensitively; every tag outside these five
resolves to the American-English pair ('a', 'af_heart'). -/
theorem C1_language_resolution (lang : String) :
    (strLower lang = "en" → resolveLang lang = ("a", "af_heart")) ∧
    (strLower lang = "gb" → resolveLang lang = ("b", "bf_sunny")) ∧
    (strLower lang = "es" → resolveLang lang = ("e", "em_alex")) ∧
    (strLower lang = "ja" → resolveLang lang = ("j", "jf_yama")) ∧
    (strLower lang = "zh" → resolveLang lang = ("z", "zf_xiaobei")) ∧
    (strLower lang ∉ (["en", "gb", "es", "ja", "zh"] : List String) →
      resolveLang lang = ("a", "af_heart")) := by
  refine ⟨fun h => ?_, fun h => ?_, fun h => ?_, fun h => ?_, fun h => ?_,
          fun h => ?_⟩
  · simp [resolveLang, lang_code_map, voice_map, h]
  · simp [resolveLang, lang_code_map, voice_map, h]
  · simp [resolveLang, lang_code_map, voice_map, h]
  · simp [resolveLang, lang_code_map, voice_map, h]
  · simp [resolveLang, lang_code_map, voice_map, h]
  · simp only [List.mem_cons, List.not_mem_nil, or_false, not_or] at h
    obtain ⟨h1, h2, h3, h4, h5⟩ := h
    simp [resolveLang, lang_code_map, voice_map, h1, h2, h3, h4, h5]

/-- Witness for C1: the uppercase tag "EN" resolves through its lowercase
form, and the unknown tag "Fr" falls back to the American-English pair. -/
theorem C1_language_resolution_witness :
    resolveLang "EN" = ("a", "af_heart") ∧
    resolveLang "Fr" = ("a", "af_heart") :=
  ⟨(C1_language_resolution "EN").1 (by decide),
   (C1_language_resolution "Fr").2.2.2.2.2 (by decide)⟩

/-- C9: the pipeline cache is a map from model language code to pipeline
instance that is only ever inserted into, never evicted: on a miss,
`get_pipeline` constructs a new instance (bumping the construction
counter), stores it under the code and returns it, preserving all existing
entries; on a hit it returns the stored instance with the cache unchanged
and no construction. -/
theorem C9_pipeline_cache (c : PipelineCache) (code : String) :
    (c.table.lookup code = none →
      (get_pipeline c code).1.table.lookup code = some c.nextId ∧
      (get_pipeline c code).2 = c.nextId ∧
      (get_pipeline c code).1.nextId = c.nextId + 1) ∧
    (∀ p, c.table.lookup code = some p →
      get_pipeline c code = (c, p)) ∧
    (∀ k v, c.table.lookup k = some v →
      (get_pipeline c code).1.table.lookup k = some v) := by
  refine ⟨fun h => ?_, fun p hp => ?_, fun k v hkv => ?_⟩
  · simp [get_pipeline, h, List.lookup]
  · simp [get_pipeline, hp]
  · unfold get_pipeline
    cases h : c.table.lookup code with
    | some p => simpa using hkv
    | none =>
        have hne : k ≠ code := by
          intro he
          rw [he, h] at hkv
          exact Option.noConfusion hkv
        simp only [List.lookup]
        rw [beq_eq_false_iff_ne.mpr hne]
        exact hkv

/-- Witness for C9: starting from an empty cache, the first call for code
"a" constructs and stores instance 0, and a second call returns that
stored instance with the cache unchanged. -/
theorem C9_pipeline_cache_witness :
    (get_pipeline ⟨[], 0⟩ "a").1.table.lookup "a" = some 0 ∧
    get_pipeline (get_pipeline ⟨[], 0⟩ "a").1 "a" =
      ((get_pipeline ⟨[], 0⟩ "a").1, 0) :=
  ⟨((C9_pipeline_cache ⟨[], 0⟩ "a").1 (by decide)).1,
   (C9_pipeline_cache (get_pipeline ⟨[], 0⟩ "a").1 "a").2.1 0 (by decide)⟩

/-- The encoder flag of `convert_to_ogg` is `false` whenever the encoder
process does not exit with status 0 (non-zero exit or raise). -/
theorem convert_to_ogg_fail (enc : EncResult) (h : enc ≠ .exitCode 0)
    (w o : String) : (convert_to_ogg enc w o).1 = false := by
  cases enc with
  | exitCode n =>
      cases n with
      | zero => exact absurd rfl h
      | succ m => rfl
  | raised m => rfl

/-- A concrete collaborator environment where every stage succeeds, used
to instantiate the theorems below. -/
def envOk : Env :=
  { tempDir := "/tmp/tts_audio"
    requestId := "3f2a8c1d-9b4e-4a6f-8c2d-1e5b7a9d0f34"
    phonBatches := .ok [("hello", .str "hEloU", [])]
    genBatches := fun _ => .ok [("g", "p", [1, 2]), ("g2", "p2", [3])]
    enc := .exitCode 0 }

/-- C2: the orchestrator invokes the pipeline on the full text (with
`split_pattern=None`), uses only the phoneme string of the first yielded
batch — the outcome is unchanged if all later batches are dropped — and
the synthesis step receives exactly that first batch's phoneme string. -/
theorem C2_first_batch_phonemes (strE : Exc → String) (env : Env)
    (text lang : String) (b : String × PS × List Int)
    (rest : List (String × PS × List Int)) (s : String)
    (hb : env.phonBatches = .ok (b :: rest))
    (hs : extractPhonemes b.2.1 = .ok s) (hne : s ≠ "") :
    Effect.pipelineCall text (resolveLang lang).2 1 none ∈
      (text_to_speech strE env text lang).2 ∧
    Effect.genTokens s (resolveLang lang).2 1 ∈
      (text_to_speech strE env text lang).2 ∧
    (∀ t v sp, Effect.genTokens t v sp ∈ (text_to_speech strE env text lang).2 →
      t = s ∧ v = (resolveLang lang).2 ∧ sp = 1) ∧
    text_to_speech strE env text lang =
      text_to_speech strE { env with phonBatches := .ok [b] } text lang := by
  unfold text_to_speech tts_body
  simp only [hb, hs, if_neg hne]
  cases hg : env.genBatches s with
  | error e => simp
  | ok batches =>
      by_cases hbe : batches = []
      · simp [hbe]
      · simp only [if_neg hbe]
        cases hc : (convert_to_ogg env.enc
            (env.tempDir ++ "/" ++ env.requestId ++ ".wav")
            (env.tempDir ++ "/" ++ env.requestId ++ ".ogg")).1 <;>
          simp [convert_to_ogg]

/-- Witness for C2 at a concrete environment: the synthesis step receives
the first batch's phoneme string, and dropping later batches leaves the
outcome unchanged. -/
theorem C2_first_batch_phonemes_witness :
    Effect.genTokens "hEloU" (resolveLang "en").2 1 ∈
      (text_to_speech pyStr envOk "hello" "en").2 ∧
    text_to_speech pyStr envOk "hello" "en" =
      text_to_speech pyStr
        { envOk with phonBatches := .ok [("hello", .str "hEloU", [])] }
        "hello" "en" :=
  ⟨(C2_first_batch_phonemes pyStr envOk "hello" "en" ("hello", .str "hEloU", [])
      [] "hEloU" rfl rfl (by decide)).2.1,
   (C2_first_batch_phonemes pyStr envOk "hello" "en" ("hello", .str "hEloU", [])
      [] "hEloU" rfl rfl (by decide)).2.2.2⟩

/-- C3: the phoneme string is fed to `generate_from_tokens` with the
resolved voice and speed 1; all yielded audio batches are collected in
yield order, concatenated, and written as a WAV file at sample rate
24000 under the per-request identifier. -/
theorem C3_synthesis_and_wav_write (strE : Exc → String) (env : Env)
    (text lang : String) (b : String × PS × List Int)
    (rest : List (String × PS × List Int)) (s : String)
    (batches : List (String × String × List Int))
    (hb : env.phonBatches = .ok (b :: rest))
    (hs : extractPhonemes b.2.1 = .ok s) (hne : s ≠ "")
    (hg : env.genBatches s = .ok batches) (hbe : batches ≠ []) :
    Effect.genTokens s (resolveLang lang).2 1 ∈
      (text_to_speech strE env text lang).2 ∧
    Effect.sfWrite (env.tempDir ++ "/" ++ env.requestId ++ ".wav")
        (batches.map (fun x => x.2.2)).flatten 24000 ∈
      (text_to_speech strE env text lang).2 := by
  unfold text_to_speech tts_body
  simp only [hb, hs, if_neg hne, hg, if_neg hbe]
  cases hc : (convert_to_ogg env.enc
      (env.tempDir ++ "/" ++ env.requestId ++ ".wav")
      (env.tempDir ++ "/" ++ env.requestId ++ ".ogg")).1 <;>
    simp [convert_to_ogg]

/-- Witness for C3 at a concrete environment: the concatenated audio of
both yielded batches is written at 24000 Hz under the request id. -/
theorem C3_synthesis_and_wav_write_witness :
    Effect.sfWrite "/tmp/tts_audio/3f2a8c1d-9b4e-4a6f-8c2d-1e5b7a9d0f34.wav"
        [1, 2, 3] 24000 ∈ (text_to_speech pyStr envOk "hello" "en").2 := by
  have h := (C3_synthesis_and_wav_write pyStr envOk "hello" "en"
    ("hello", .str "hEloU", []) [] "hEloU"
    [("g", "p", [1, 2]), ("g2", "p2", [3])] rfl rfl (by decide) rfl
    (by decide)).2
  simpa using h

/-- C4: if phonemization yields no batch, or its first batch's phoneme
string is empty, the call fails with an error response and the external
encoder is never invoked. -/
theorem C4_no_phonemes_aborts (strE : Exc → String) (env : Env)
    (text lang : String)
    (h : env.phonBatches = .ok [] ∨
      ∃ b rest, env.phonBatches = .ok (b :: rest) ∧
        extractPhonemes b.2.1 = .ok "") :
    (text_to_speech strE env text lang).1 =
      .errorJson 500 ("Internal server error: " ++
        strE (.httpExc 500 "No phonemes generated from text")) ∧
    ∀ cmd, Effect.runExternal cmd ∉ (text_to_speech strE env text lang).2 := by
  rcases h with h | ⟨b, rest, hb, hs⟩
  · unfold text_to_speech tts_body
    simp [h]
  · unfold text_to_speech tts_body
    simp [hb, hs]

/-- Witness for C4: an environment whose phonemizer yields nothing
produces the wrapped error and no encoder invocation. -/
theorem C4_no_phonemes_aborts_witness :
    (text_to_speech pyStr { envOk with phonBatches := .ok [] }
        "hello" "en").1 =
      .errorJson 500 ("Internal server error: " ++
        pyStr (.httpExc 500 "No phonemes generated from text")) ∧
    ∀ cmd, Effect.runExternal cmd ∉
      (text_to_speech pyStr { envOk with phonBatches := .ok [] }
        "hello" "en").2 :=
  C4_no_phonemes_aborts pyStr { envOk with phonBatches := .ok [] }
    "hello" "en" (.inl rfl)

/-- C5: if `generate_from_tokens` yields no audio batches, the call fails
with an error response and the external encoder is never invoked. -/
theorem C5_no_audio_aborts (strE : Exc → String) (env : Env)
    (text lang : String) (b : String × PS × List Int)
    (rest : List (String × PS × List Int)) (s : String)
    (hb : env.phonBatches = .ok (b :: rest))
    (hs : extractPhonemes b.2.1 = .ok s) (hne : s ≠ "")
    (hg : env.genBatches s = .ok []) :
    (text_to_speech strE env text lang).1 =
      .errorJson 500 ("Internal server error: " ++
        strE (.httpExc 500 "No audio segments generated from phonemes")) ∧
    ∀ cmd, Effect.runExternal cmd ∉ (text_to_speech strE env text lang).2 := by
  unfold text_to_speech tts_body
  simp [hb, hs, if_neg hne, hg]

/-- Witness for C5: an environment whose synthesizer yields no batches
produces the wrapped error and no encoder invocation. -/
theorem C5_no_audio_aborts_witness :
    (text_to_speech pyStr { envOk with genBatches := fun _ => .ok [] }
        "hello" "en").1 =
      .errorJson 500 ("Internal server error: " ++
        pyStr (.httpExc 500 "No audio segments generated from phonemes")) ∧
    ∀ cmd, Effect.runExternal cmd ∉
      (text_to_speech pyStr { envOk with genBatches := fun _ => .ok [] }
        "hello" "en").2 :=
  C5_no_audio_aborts pyStr { envOk with genBatches := fun _ => .ok [] }
    "hello" "en" ("hello", .str "hEloU", []) [] "hEloU" rfl rfl (by decide) rfl

/-- C6: if the external encoder exits non-zero or its invocation raises,
the call fails with a reported error and no file is returned. -/
theorem C6_encoder_failure_aborts (strE : Exc → String) (env : Env)
    (text lang : String) (h : env.enc ≠ .exitCode 0) :
    (∃ d, (text_to_speech strE env text lang).1 = .errorJson 500 d) ∧
    ∀ fr, (text_to_speech strE env text lang).1 ≠ .file fr := by
  have key : ∃ d, (text_to_speech strE env text lang).1 = .errorJson 500 d := by
    unfold text_to_speech tts_body
    cases hp : env.phonBatches with
    | error e => simp
    | ok l =>
        cases l with
        | nil => simp
        | cons b rest =>
            cases hx : extractPhonemes b.2.1 with
            | error e => simp [hx]
            | ok s =>
                by_cases hse : s = ""
                · simp [hx, hse]
                · simp only [hx, if_neg hse]
                  cases hg : env.genBatches s with
                  | error e => simp [hg]
                  | ok batches =>
                      by_cases hbe : batches = []
                      · simp [hg, hbe]
                      · simp [hg, if_neg hbe,
                              convert_to_ogg_fail env.enc h]
  refine ⟨key, fun fr hfr => ?_⟩
  obtain ⟨d, hd⟩ := key
  rw [hfr] at hd
  exact HttpResponse.noConfusion hd

/-- Witness for C6: with the encoder exiting with status 1, the call
returns an error response rather than a file. -/
theorem C6_encoder_failure_aborts_witness :
    (∃ d, (text_to_speech pyStr { envOk with enc := .exitCode 1 }
        "hello" "en").1 = .errorJson 500 d) ∧
    ∀ fr, (text_to_speech pyStr { envOk with enc := .exitCode 1 }
        "hello" "en").1 ≠ .file fr :=
  C6_encoder_failure_aborts pyStr { envOk with enc := .exitCode 1 }
    "hello" "en" (by decide)

/-- C7: every request either returns a file, or fails with a single
generic HTTP 500 whose JSON detail is "Internal server error: " followed
by the underlying exception's string form; no failure kind gets a
different status code. -/
theorem C7_uniform_500 (strE : Exc → String) (env : Env)
    (text lang : String) :
    (∃ fr, (text_to_speech strE env text lang).1 = .file fr) ∨
    (∃ e, (tts_body env text lang).1 = .error e ∧
      (text_to_speech strE env text lang).1 =
        .errorJson 500 ("Internal server error: " ++ strE e)) := by
  rcases h : tts_body env text lang with ⟨r, tr⟩
  cases r with
  | ok fr =>
      left
      exact ⟨fr, by simp [text_to_speech, h]⟩
  | error e =>
      right
      exact ⟨e, by simp [h], by simp [text_to_speech, h]⟩

/-- C8: a successful request returns the compressed file with media type
`audio/ogg` and filename `speech_<request_id>.ogg`, where the request
identifier is a syntactically valid UUID and is the same identifier used
in the on-disk WAV and OGG artifact paths. -/
theorem C8_success_response (strE : Exc → String) (env : Env)
    (text lang : String) (b : String × PS × List Int)
    (rest : List (String × PS × List Int)) (s : String)
    (batches : List (String × String × List Int))
    (hb : env.phonBatches = .ok (b :: rest))
    (hs : extractPhonemes b.2.1 = .ok s) (hne : s ≠ "")
    (hg : env.genBatches s = .ok batches) (hbe : batches ≠ [])
    (henc : env.enc = .exitCode 0)
    (huuid : isValidUuid env.requestId = true) :
    (text_to_speech strE env text lang).1 =
      .file ⟨env.tempDir ++ "/" ++ env.requestId ++ ".ogg", "audio/ogg",
             "speech_" ++ env.requestId ++ ".ogg"⟩ ∧
    isValidUuid env.requestId = true ∧
    Effect.sfWrite (env.tempDir ++ "/" ++ env.requestId ++ ".wav")
        (batches.map (fun x => x.2.2)).flatten 24000 ∈
      (text_to_speech strE env text lang).2 ∧
    Effect.runExternal
        (ffmpegCmd (env.tempDir ++ "/" ++ env.requestId ++ ".wav")
          (env.tempDir ++ "/" ++ env.requestId ++ ".ogg")) ∈
      (text_to_speech strE env text lang).2 := by
  refine ⟨?_, huuid, ?_, ?_⟩ <;>
  · unfold text_to_speech tts_body
    simp [hb, hs, if_neg hne, hg, if_neg hbe, henc, convert_to_ogg]

/-- Witness for C8: the fully successful environment yields the OGG file
response named by its (syntactically valid) request identifier. -/
theorem C8_success_response_witness :
    (text_to_speech pyStr envOk "hello" "en").1 =
      .file ⟨"/tmp/tts_audio" ++ "/" ++ envOk.requestId ++ ".ogg", "audio/ogg",
             "speech_" ++ envOk.requestId ++ ".ogg"⟩ ∧
    isValidUuid envOk.requestId = true :=
  ⟨(C8_success_response pyStr envOk "hello" "en" ("hello", .str "hEloU", [])
      [] "hEloU" [("g", "p", [1, 2]), ("g2", "p2", [3])] rfl rfl (by decide)
      rfl (by decide) rfl (by decide)).1,
   (C8_success_response pyStr envOk "hello" "en" ("hello", .str "hEloU", [])
      [] "hEloU" [("g", "p", [1, 2]), ("g2", "p2", [3])] rfl rfl (by decide)
      rfl (by decide) rfl (by decide)).2.1⟩

/-- C10: each of the three named abort points raises an `HTTPException`
that the catch-all clause itself catches and re-wraps into a new 500
whose detail is "Internal server error: " followed by the string form of
the caught exception (Starlette renders it as `"<status>: <detail>"`), so
the abort point's original detail string is never the delivered detail. -/
theorem C10_abort_details_rewrapped (env : Env) (text lang : String) :
    (env.phonBatches = .ok [] →
      (text_to_speech pyStr env text lang).1 =
        .errorJson 500 ("Internal server error: " ++
          pyStr (.httpExc 500 "No phonemes generated from text")) ∧
      (text_to_speech pyStr env text lang).1 ≠
        .errorJson 500 "No phonemes generated from text") ∧
    (∀ b rest s, env.phonBatches = .ok (b :: rest) →
      extractPhonemes b.2.1 = .ok s → s ≠ "" →
      env.genBatches s = .ok [] →
      (text_to_speech pyStr env text lang).1 =
        .errorJson 500 ("Internal server error: " ++
          pyStr (.httpExc 500 "No audio segments generated from phonemes")) ∧
      (text_to_speech pyStr env text lang).1 ≠
        .errorJson 500 "No audio segments generated from phonemes") ∧
    (∀ b rest s batches, env.phonBatches = .ok (b :: rest) →
      extractPhonemes b.2.1 = .ok s → s ≠ "" →
      env.genBatches s = .ok batches → batches ≠ [] →
      env.enc ≠ .exitCode 0 →
      (text_to_speech pyStr env text lang).1 =
        .errorJson 500 ("Internal server error: " ++
          pyStr (.httpExc 500 "Error during audio conversion")) ∧
      (text_to_speech pyStr env text lang).1 ≠
        .errorJson 500 "Error during audio conversion") := by
  refine ⟨fun h => ?_, fun b rest s hb hs hne hg => ?_,
          fun b rest s batches hb hs hne hg hbe henc => ?_⟩
  · have he : (text_to_speech pyStr env text lang).1 =
        .errorJson 500 ("Internal server error: " ++
          pyStr (.httpExc 500 "No phonemes generated from text")) := by
      unfold text_to_speech tts_body
      simp [h]
    exact ⟨he, by rw [he]; decide⟩
  · have he : (text_to_speech pyStr env text lang).1 =
        .errorJson 500 ("Internal server error: " ++
          pyStr (.httpExc 500 "No audio segments generated from phonemes")) := by
      unfold text_to_speech tts_body
      simp [hb, hs, if_neg hne, hg]
    exact ⟨he, by rw [he]; decide⟩
  · have he : (text_to_speech pyStr env text lang).1 =
        .errorJson 500 ("Internal server error: " ++
          pyStr (.httpExc 500 "Error during audio conversion")) := by
      unfold text_to_speech tts_body
      simp [hb, hs, if_neg hne, hg, if_neg hbe,
            convert_to_ogg_fail env.enc henc]
    exact ⟨he, by rw [he]; decide⟩

/-- Witness for C10: each abort point's delivered detail is the wrapped
form, exercised at three concrete environments. -/
theorem C10_abort_details_rewrapped_witness :
    (text_to_speech pyStr { envOk with phonBatches := .ok [] }
        "hi" "en").1 =
      .errorJson 500 ("Internal server error: " ++
        pyStr (.httpExc 500 "No phonemes generated from text")) ∧
    (text_to_speech pyStr { envOk with genBatches := fun _ => .ok [] }
        "hi" "en").1 =
      .errorJson 500 ("Internal server error: " ++
        pyStr (.httpExc 500 "No audio segments generated from phonemes")) ∧
    (text_to_speech pyStr { envOk with enc := .exitCode 1 }
        "hi" "en").1 =
      .errorJson 500 ("Internal server error: " ++
        pyStr (.httpExc 500 "Error during audio conversion")) :=
  ⟨((C10_abort_details_rewrapped { envOk with phonBatches := .ok [] }
      "hi" "en").1 rfl).1,
   ((C10_abort_details_rewrapped { envOk with genBatches := fun _ => .ok [] }
      "hi" "en").2.1 ("hello", .str "hEloU", []) [] "hEloU" rfl rfl
      (by decide) rfl).1,
   ((C10_abort_details_rewrapped { envOk with enc := .exitCode 1 }
      "hi" "en").2.2 ("hello", .str "hEloU", []) [] "hEloU"
      [("g", "p", [1, 2]), ("g2", "p2", [3])] rfl rfl (by decide) rfl
      (by decide) (by decide)).1⟩

end TTSServer
